import Mathlib

/-!
Verification development for the r3f showcase viewer, a single-page 3D
scene with clickable hotspot markers. The repository holds three
near-duplicate variants: `src/src/App.jsx` (namespace `AppJsx`),
`src/unnamed/part_000` (namespace `Part000`) and `src/unnamed/part_001`
(namespace `Part001`).

Modelling conventions: JS numbers are modelled as real numbers with
exact arithmetic; viewport quantities read by the device probe are
modelled as rationals so that the probe stays executable. A JS division
whose result is non-finite (division by zero on a nonzero numerator)
is modelled as `none`. A camera's orientation is modelled by the point
last passed to `lookAt`.
-/

namespace R3F

/-- Three-component vector, modelling `THREE.Vector3`. -/
@[ext]
structure Vec3 where
  x : ℝ
  y : ℝ
  z : ℝ

/-- Pointer event state: `stopPropagation()` sets the flag. -/
structure PointerEvent where
  propagationStopped : Bool

/-- Browser environment snapshot read by the device probe:
`window.innerWidth`, `window.devicePixelRatio` (named `dpr` as in
part_000) and `navigator.hardwareConcurrency`. -/
structure Env where
  innerWidth : ℚ
  dpr : ℚ
  hardwareConcurrency : Nat

namespace Part000

/-- The mobile predicate of `useDevicePerformance`:
`window.innerWidth <= 768`. -/
def isMobileOf (e : Env) : Bool := e.innerWidth ≤ 768

/-- The JS defaulting `window.devicePixelRatio || 1`: a zero (falsy)
pixel ratio is replaced by 1. -/
def effectiveDpr (e : Env) : ℚ := if e.dpr = 0 then 1 else e.dpr

/-- The low-power heuristic of `useDevicePerformance`:
`dpr < 1 || dpr >= 2.5 || navigator.hardwareConcurrency <= 2`. -/
def lowPowerOf (e : Env) : Bool :=
  decide (effectiveDpr e < 1) || decide (2.5 ≤ effectiveDpr e) ||
    decide (e.hardwareConcurrency ≤ 2)

/-- The pair of states held by `useDevicePerformance`. -/
structure DeviceState where
  isMobile : Bool
  lowPower : Bool

/-- Hook state after mount: the initial render computes `isMobile`
from the viewport width, and the mount effect computes `lowPower`
once from the heuristic. -/
def useDevicePerformanceMount (e : Env) : DeviceState :=
  { isMobile := isMobileOf e, lowPower := lowPowerOf e }

/-- The `resize` listener installed by `useDevicePerformance`: it
recomputes only `isMobile`; `lowPower` is left as it was. -/
def onResize (s : DeviceState) (e : Env) : DeviceState :=
  { s with isMobile := isMobileOf e }

end Part000

namespace AppJsx

/-- The `isMobile` state of `App` in App.jsx: the initial value and
the `resize` listener both compute `window.innerWidth <= 768`. -/
def isMobileOf (e : Env) : Bool := e.innerWidth ≤ 768

/-- Content block of a marker. -/
structure MarkerContent where
  title : String
  description : String
  specs : List String

/-- One entry of `glowingPoints`: position, label and content. -/
structure Marker where
  position : Vec3
  label : String
  content : MarkerContent

/-- The value stored by `setSelectedPoint` on a marker click:
`{ position, label, point }`. -/
structure SelectedInfo where
  position : Vec3
  label : String
  point : Marker

/-- The `onClick` arrow of the marker mesh in App.jsx:
`() => onPointClick(position, label, point)`. It never touches the
event object, and invokes the callback with this marker's own data. -/
def glowingPointOnClick (position : Vec3) (label : String) (point : Marker)
    (e : PointerEvent) : PointerEvent × (Vec3 × String × Marker) :=
  (e, (position, label, point))

end AppJsx

namespace Part000

/-- The `onClick` arrow of the marker mesh in part_000:
`e.stopPropagation(); onPointClick && onPointClick(position)`. -/
def glowingPointOnClick (position : Vec3) (hasCallback : Bool)
    (e : PointerEvent) : PointerEvent × Option Vec3 :=
  ({ e with propagationStopped := true },
   if hasCallback then some position else none)

end Part000

namespace Part001

/-- The `onClick` arrow of `ClickPoint` in part_001:
`e.stopPropagation(); onClick(position)`. -/
def clickPointOnClick (position : Vec3) (e : PointerEvent) :
    PointerEvent × Vec3 :=
  ({ e with propagationStopped := true }, position)

end Part001

noncomputable section

/-- `Vector3.add`, componentwise. -/
def Vec3.add (a b : Vec3) : Vec3 := ⟨a.x + b.x, a.y + b.y, a.z + b.z⟩

/-- `Vector3.sub`, componentwise. -/
def Vec3.sub (a b : Vec3) : Vec3 := ⟨a.x - b.x, a.y - b.y, a.z - b.z⟩

/-- `Vector3.multiplyScalar`. -/
def Vec3.smul (r : ℝ) (v : Vec3) : Vec3 := ⟨r * v.x, r * v.y, r * v.z⟩

/-- Componentwise negation, used for `position.sub(center)` applied to
an object whose position starts at the origin. -/
def Vec3.neg (v : Vec3) : Vec3 := ⟨-v.x, -v.y, -v.z⟩

/-- `Vector3.lengthSq`. -/
def Vec3.lengthSq (v : Vec3) : ℝ := v.x * v.x + v.y * v.y + v.z * v.z

/-- `Vector3.length`. -/
def Vec3.length (v : Vec3) : ℝ := Real.sqrt v.lengthSq

/-- `Vector3.normalize`, which is `divideScalar(this.length() || 1)`:
the JS `|| 1` replaces a zero length by 1, and `divideScalar(s)`
multiplies by `1 / s`. A zero vector is therefore left unchanged. -/
def Vec3.normalize (v : Vec3) : Vec3 :=
  Vec3.smul (1 / (if v.length = 0 then 1 else v.length)) v

/-- `Vector3.lerpVectors(v1, v2, alpha)`: `v1 + (v2 - v1) * alpha`,
componentwise. -/
def lerpVectors (a b : Vec3) (t : ℝ) : Vec3 :=
  ⟨a.x + (b.x - a.x) * t, a.y + (b.y - a.y) * t, a.z + (b.z - a.z) * t⟩

/-- Axis-aligned bounding box, modelling `THREE.Box3`. -/
structure Box3 where
  min : Vec3
  max : Vec3

/-- `Box3.getCenter`: the midpoint of `min` and `max`. -/
def Box3.getCenter (b : Box3) : Vec3 :=
  Vec3.smul (1 / 2) (Vec3.add b.min b.max)

/-- `Box3.getSize`: `max - min`. -/
def Box3.getSize (b : Box3) : Vec3 := Vec3.sub b.max b.min

/-- The largest box dimension, `Math.max(size.x, size.y, size.z)`. -/
def maxDim (b : Box3) : ℝ :=
  max (max (Box3.getSize b).x (Box3.getSize b).y) (Box3.getSize b).z

/-- The translation and uniform scale the loaders write onto the loaded
scene (`scene.position`, `scene.scale`). A three.js object maps a local
point `q` to `scale * q + position` (scale is applied before the
translation). -/
structure Transform where
  position : Vec3
  scale : ℝ

/-- The point a transform sends a local point to. -/
def applyTransform (t : Transform) (q : Vec3) : Vec3 :=
  Vec3.add (Vec3.smul t.scale q) t.position

/-- Image of a box under a transform; for a nonnegative scale this is
the pointwise image of the box. -/
def transformBox (t : Transform) (b : Box3) : Box3 :=
  ⟨applyTransform t b.min, applyTransform t b.max⟩

/-- Camera state: its position, plus the point last passed to
`camera.lookAt` (modelling the orientation). -/
structure Camera where
  position : Vec3
  lookTarget : Vec3

namespace AppJsx

/-- `easeInOutCubic` from App.jsx:
`t < 0.5 ? 4 t³ : 1 - ((-2 t + 2)³) / 2`. -/
def easeInOutCubic (t : ℝ) : ℝ :=
  if t < 0.5 then 4 * t * t * t else 1 - (-2 * t + 2) ^ 3 / 2

/-- `animationRef.current` of `CameraController` in App.jsx. -/
structure CamAnim where
  startPosition : Vec3
  startLookAt : Vec3
  progress : ℝ
  isAnimating : Bool

/-- The `useEffect` of `CameraController` in App.jsx: when both targets
are set, capture the live camera position and the origin as the
interpolation start, reset progress to 0 and mark the animation
active; when either target is null, do nothing. -/
def startAnimation (cameraPosition : Vec3)
    (targetPosition targetLookAt : Option Vec3) (anim : CamAnim) : CamAnim :=
  match targetPosition, targetLookAt with
  | some _, some _ =>
      { startPosition := cameraPosition, startLookAt := ⟨0, 0, 0⟩,
        progress := 0, isAnimating := true }
  | _, _ => anim

/-- The `useFrame` body of `CameraController` in App.jsx: return if not
animating; add 0.004 to progress; if progress reached 1, clamp it,
stop animating and copy the exact targets onto the camera; otherwise
interpolate position and look-at with the eased progress. -/
def frame (targetPosition targetLookAt : Vec3) (anim : CamAnim)
    (cam : Camera) : CamAnim × Camera :=
  if anim.isAnimating = false then (anim, cam)
  else if 1 ≤ anim.progress + 0.004 then
    ({ anim with progress := 1, isAnimating := false },
     { position := targetPosition, lookTarget := targetLookAt })
  else
    ({ anim with progress := anim.progress + 0.004 },
     { position := lerpVectors anim.startPosition targetPosition
         (easeInOutCubic (anim.progress + 0.004)),
       lookTarget := lerpVectors anim.startLookAt targetLookAt
         (easeInOutCubic (anim.progress + 0.004)) })

/-- The UI state owned by `App` in App.jsx that the handlers touch. -/
structure AppState where
  cameraTarget : Option Vec3
  cameraLookAt : Option Vec3
  selectedPoint : Option SelectedInfo

/-- `handlePointClick` in App.jsx: store the clicked marker as the
selection, aim the camera at a point offset from the marker along its
normalized direction by 5 units, and look at the marker itself. -/
def handlePointClick (s : AppState) (position : Vec3) (label : String)
    (point : Marker) : AppState :=
  let direction := Vec3.normalize position
  let cameraPos : Vec3 :=
    ⟨position.x + direction.x * 5, position.y + direction.y * 5,
     position.z + direction.z * 5⟩
  { s with selectedPoint := some ⟨position, label, point⟩,
           cameraTarget := some cameraPos,
           cameraLookAt := some position }

/-- `handleResetCamera` in App.jsx. -/
def handleResetCamera (s : AppState) : AppState :=
  { s with cameraTarget := some ⟨15, 12, 15⟩,
           cameraLookAt := some ⟨0, 0, 0⟩,
           selectedPoint := none }

/-- The scale computed by `Model` in App.jsx: `10 / maxDim`, with no
guard. When `maxDim` is 0 the JS quotient is the non-finite value
`Infinity`, modelled as `none`. -/
def modelScale (b : Box3) : Option ℝ :=
  if maxDim b = 0 then none else some (10 / maxDim b)

/-- The transform `Model` in App.jsx leaves on the scene:
`scene.position.sub(center)` then `scene.scale.multiplyScalar(scale)`,
starting from the identity transform — the translation is the
unscaled negated center. -/
def modelTransform (b : Box3) : Option Transform :=
  (modelScale b).map (fun s => ⟨Vec3.neg (Box3.getCenter b), s⟩)

end AppJsx

namespace Part000

/-- `ref.current` of `CameraController` in part_000. -/
structure CamRef where
  progress : ℝ
  fromPos : Vec3
  fromLookAt : Vec3

/-- The `useEffect` of `CameraController` in part_000: when both
targets are set, reset progress to 0 and capture the live camera
position and the origin as the interpolation start. -/
def startAnimation (cameraPosition : Vec3)
    (targetPos targetLookAt : Option Vec3) (r : CamRef) : CamRef :=
  match targetPos, targetLookAt with
  | some _, some _ =>
      { progress := 0, fromPos := cameraPosition, fromLookAt := ⟨0, 0, 0⟩ }
  | _, _ => r

/-- The `useFrame` body of `CameraController` in part_000: return if
progress has reached 1 or either target is null; otherwise clamp
`progress + 0.03` at 1 and interpolate with the cosine easing
`(1 - cos(progress * π)) / 2`. -/
def frame (targetPos targetLookAt : Option Vec3) (r : CamRef)
    (cam : Camera) : CamRef × Camera :=
  match targetPos, targetLookAt with
  | some tp, some tl =>
      if 1 ≤ r.progress then (r, cam)
      else
        ({ r with progress := min 1 (r.progress + 0.03) },
         { position := lerpVectors r.fromPos tp
             ((1 - Real.cos (min 1 (r.progress + 0.03) * Real.pi)) / 2),
           lookTarget := lerpVectors r.fromLookAt tl
             ((1 - Real.cos (min 1 (r.progress + 0.03) * Real.pi)) / 2) })
  | _, _ => (r, cam)

/-- The UI state owned by `App` in part_000 that the handlers touch. -/
structure AppState where
  cameraTarget : Option Vec3
  cameraLookAt : Option Vec3
  selectedIndex : Option Nat

/-- `handlePointClick` in part_000: store the clicked index as the
selection, aim the camera at a point offset from the marker along its
normalized direction by 4.2 units, and look at the marker itself. -/
def handlePointClick (s : AppState) (pos : Vec3) (idx : Nat) : AppState :=
  let dir := Vec3.normalize pos
  let camPos : Vec3 :=
    ⟨pos.x + dir.x * 4.2, pos.y + dir.y * 4.2, pos.z + dir.z * 4.2⟩
  { s with selectedIndex := some idx,
           cameraTarget := some camPos,
           cameraLookAt := some pos }

/-- `resetCamera` in part_000. -/
def resetCamera (s : AppState) : AppState :=
  { s with cameraTarget := some ⟨14, 10, 14⟩,
           cameraLookAt := some ⟨0, 0, 0⟩,
           selectedIndex := none }

/-- The scale computed by `Model` in part_000:
`maxDim > 0 ? 6 / maxDim : 1` — the degenerate box is guarded. -/
def modelScale (b : Box3) : ℝ :=
  if 0 < maxDim b then 6 / maxDim b else 1

/-- The transform `Model` in part_000 leaves on the scene:
`scene.scale.setScalar(scale)` and
`scene.position.sub(center.multiplyScalar(scale))` — the translation
is the negated scaled center. -/
def modelTransform (b : Box3) : Transform :=
  { position := Vec3.neg (Vec3.smul (modelScale b) (Box3.getCenter b)),
    scale := modelScale b }

end Part000

end

end R3F

open R3F

/-- C5: invoking the camera reset, from any prior state, clears the
selected marker and sets the camera target to the variant's canonical
default position ((15,12,15) in App.jsx, (14,10,14) in part_000) with
the look-at point at the origin. -/
theorem reset_camera_clears_selection_and_sets_default
    (s : AppJsx.AppState) (s0 : Part000.AppState) :
    (AppJsx.handleResetCamera s).selectedPoint = none ∧
    (AppJsx.handleResetCamera s).cameraTarget = some ⟨15, 12, 15⟩ ∧
    (AppJsx.handleResetCamera s).cameraLookAt = some ⟨0, 0, 0⟩ ∧
    (Part000.resetCamera s0).selectedIndex = none ∧
    (Part000.resetCamera s0).cameraTarget = some ⟨14, 10, 14⟩ ∧
    (Part000.resetCamera s0).cameraLookAt = some ⟨0, 0, 0⟩ :=
  ⟨rfl, rfl, rfl, rfl, rfl, rfl⟩

/-- C8: the selection is a single nullable reference, so zero or one
markers are selected at any time, and clicking marker B while marker A
is selected replaces the selection (the click handlers overwrite the
selection with the clicked marker regardless of the prior state). -/
theorem single_selection_invariant
    (s : AppJsx.AppState) (p : Vec3) (l : String) (pt : AppJsx.Marker)
    (s0 : Part000.AppState) (pos : Vec3) (idx : Nat) :
    (AppJsx.handlePointClick s p l pt).selectedPoint = some ⟨p, l, pt⟩ ∧
    (Part000.handlePointClick s0 pos idx).selectedIndex = some idx ∧
    s.selectedPoint.toList.length ≤ 1 ∧
    s0.selectedIndex.toList.length ≤ 1 := by
  refine ⟨rfl, rfl, ?_, ?_⟩
  · cases s.selectedPoint <;> simp [Option.toList]
  · cases s0.selectedIndex <;> simp [Option.toList]

/-- C6 counterexample: in App.jsx the marker's click handler never
calls `stopPropagation`, so an event that arrives with propagation not
stopped leaves with propagation still not stopped. -/
theorem appjsx_click_does_not_stop_propagation :
    ¬ ((AppJsx.glowingPointOnClick ⟨2, 3, -2⟩ "Point A"
        ⟨⟨2, 3, -2⟩, "Point A",
         ⟨"Master Bedroom",
          "Spacious master bedroom with premium furnishings and natural lighting.",
          ["3.5m x 4.2m", "King bed", "Ensuite bathroom"]⟩⟩
        ⟨false⟩).1.propagationStopped = true) := by
  simp [AppJsx.glowingPointOnClick]

/-- C6 amended: in part_000 and part_001 the marker click handler stops
the event's propagation and invokes only this marker's callback with
its own position; in App.jsx the handler invokes only this marker's
callback with its own data but leaves the event untouched, so
propagation is not stopped there. -/
theorem click_propagation_amended (pos pos2 p : Vec3) (l : String)
    (pt : AppJsx.Marker) (hasCb : Bool) (e e2 e3 : PointerEvent) :
    (Part000.glowingPointOnClick pos hasCb e).1.propagationStopped = true ∧
    (Part001.clickPointOnClick pos2 e2).1.propagationStopped = true ∧
    (AppJsx.glowingPointOnClick p l pt e3).1 = e3 ∧
    (AppJsx.glowingPointOnClick p l pt e3).2 = (p, l, pt) ∧
    (Part000.glowingPointOnClick pos true e).2 = some pos ∧
    (Part001.clickPointOnClick pos2 e2).2 = pos2 :=
  ⟨rfl, rfl, rfl, rfl, rfl, rfl⟩

/-- C7 counterexample: `lowPower` is not recomputed on a resize event.
Mounting with pixel ratio 3 marks the device low-power; after a resize
event in an environment with pixel ratio 3/2 (not low-power), the hook
still reports the stale low-power value. -/
theorem low_power_not_recomputed_on_resize :
    (Part000.onResize (Part000.useDevicePerformanceMount ⟨800, 3, 8⟩)
        ⟨800, 3 / 2, 8⟩).lowPower = true ∧
    Part000.lowPowerOf ⟨800, 3 / 2, 8⟩ = false ∧
    (Part000.onResize (Part000.useDevicePerformanceMount ⟨800, 3, 8⟩)
        ⟨800, 3 / 2, 8⟩).lowPower
      ≠ Part000.lowPowerOf ⟨800, 3 / 2, 8⟩ := by
  have h1 : (Part000.onResize (Part000.useDevicePerformanceMount ⟨800, 3, 8⟩)
      ⟨800, 3 / 2, 8⟩).lowPower = true := by
    norm_num [Part000.onResize, Part000.useDevicePerformanceMount,
      Part000.lowPowerOf, Part000.effectiveDpr]
  have h2 : Part000.lowPowerOf ⟨800, 3 / 2, 8⟩ = false := by
    norm_num [Part000.lowPowerOf, Part000.effectiveDpr]
  exact ⟨h1, h2, by rw [h1, h2]; simp⟩

/-- C7 amended: `isMobile` holds iff the viewport width is at most 768
and is recomputed on mount and on every resize event; `lowPower` holds
iff the effective pixel ratio (defaulted to 1 when zero) is below 1 or
at least 2.5 or the logical core count is at most 2, but it is computed
once by the mount effect and left unchanged by resize events. -/
theorem device_profile_amended (e e2 : Env) (s : Part000.DeviceState) :
    (Part000.useDevicePerformanceMount e).isMobile = Part000.isMobileOf e ∧
    (Part000.useDevicePerformanceMount e).lowPower = Part000.lowPowerOf e ∧
    (Part000.isMobileOf e = true ↔ e.innerWidth ≤ 768) ∧
    (Part000.lowPowerOf e = true ↔
      (Part000.effectiveDpr e < 1 ∨ 2.5 ≤ Part000.effectiveDpr e ∨
        e.hardwareConcurrency ≤ 2)) ∧
    (Part000.onResize s e2).isMobile = Part000.isMobileOf e2 ∧
    (Part000.onResize s e2).lowPower = s.lowPower ∧
    (AppJsx.isMobileOf e = true ↔ e.innerWidth ≤ 768) := by
  refine ⟨rfl, rfl, ?_, ?_, rfl, rfl, ?_⟩ <;>
    simp [Part000.isMobileOf, Part000.lowPowerOf, AppJsx.isMobileOf,
      Bool.or_eq_true, decide_eq_true_iff, or_assoc]

/-- C1: on a marker click, the scene root stores the clicked marker as
the selection, sets the look-at target to the marker's own position,
and sets the camera position target to the marker position offset
along its normalized direction from the origin by 5 units in App.jsx
and 4.2 units in part_000. -/
theorem marker_click_sets_selection_lookat_and_offset_target
    (s : AppJsx.AppState) (p : Vec3) (l : String) (pt : AppJsx.Marker)
    (s0 : Part000.AppState) (pos : Vec3) (idx : Nat) :
    (AppJsx.handlePointClick s p l pt).selectedPoint = some ⟨p, l, pt⟩ ∧
    (AppJsx.handlePointClick s p l pt).cameraLookAt = some p ∧
    (AppJsx.handlePointClick s p l pt).cameraTarget
      = some (Vec3.add p (Vec3.smul 5 (Vec3.normalize p))) ∧
    (Part000.handlePointClick s0 pos idx).selectedIndex = some idx ∧
    (Part000.handlePointClick s0 pos idx).cameraLookAt = some pos ∧
    (Part000.handlePointClick s0 pos idx).cameraTarget
      = some (Vec3.add pos (Vec3.smul 4.2 (Vec3.normalize pos))) := by
  refine ⟨rfl, rfl, ?_, rfl, rfl, ?_⟩
  · show some (⟨p.x + (Vec3.normalize p).x * 5, p.y + (Vec3.normalize p).y * 5,
        p.z + (Vec3.normalize p).z * 5⟩ : Vec3) = _
    simp only [Vec3.add, Vec3.smul, Option.some.injEq, Vec3.mk.injEq]
    refine ⟨by ring, by ring, by ring⟩
  · show some (⟨pos.x + (Vec3.normalize pos).x * 4.2,
        pos.y + (Vec3.normalize pos).y * 4.2,
        pos.z + (Vec3.normalize pos).z * 4.2⟩ : Vec3) = _
    simp only [Vec3.add, Vec3.smul, Option.some.injEq, Vec3.mk.injEq]
    refine ⟨by ring, by ring, by ring⟩

/-- C10: the marker-click handler is total at the origin: normalizing
the zero vector yields the zero vector (the zero length is replaced by
1 before dividing), so a click on a marker at the origin sets the
camera target to the marker position itself in both variants. -/
theorem zero_vector_marker_click_total
    (s : AppJsx.AppState) (l : String) (pt : AppJsx.Marker)
    (s0 : Part000.AppState) (idx : Nat) :
    Vec3.normalize ⟨0, 0, 0⟩ = ⟨0, 0, 0⟩ ∧
    (AppJsx.handlePointClick s ⟨0, 0, 0⟩ l pt).cameraTarget = some ⟨0, 0, 0⟩ ∧
    (Part000.handlePointClick s0 ⟨0, 0, 0⟩ idx).cameraTarget
      = some ⟨0, 0, 0⟩ := by
  have hl : (⟨0, 0, 0⟩ : Vec3).length = 0 := by
    simp [Vec3.length, Vec3.lengthSq]
  have hn : Vec3.normalize ⟨0, 0, 0⟩ = ⟨0, 0, 0⟩ := by
    simp [Vec3.normalize, hl, Vec3.smul]
  refine ⟨hn, ?_, ?_⟩
  · have h1 : (AppJsx.handlePointClick s ⟨0, 0, 0⟩ l pt).cameraTarget
        = some ⟨(0 : ℝ) + (Vec3.normalize ⟨0, 0, 0⟩).x * 5,
                (0 : ℝ) + (Vec3.normalize ⟨0, 0, 0⟩).y * 5,
                (0 : ℝ) + (Vec3.normalize ⟨0, 0, 0⟩).z * 5⟩ := rfl
    rw [h1, hn]
    norm_num
  · have h1 : (Part000.handlePointClick s0 ⟨0, 0, 0⟩ idx).cameraTarget
        = some ⟨(0 : ℝ) + (Vec3.normalize ⟨0, 0, 0⟩).x * 4.2,
                (0 : ℝ) + (Vec3.normalize ⟨0, 0, 0⟩).y * 4.2,
                (0 : ℝ) + (Vec3.normalize ⟨0, 0, 0⟩).z * 4.2⟩ := rfl
    rw [h1, hn]
    norm_num

/-- Interpolating with factor 1 lands exactly on the second vector. -/
theorem lerpVectors_one (a b : Vec3) : lerpVectors a b 1 = b := by
  unfold lerpVectors
  ext <;> ring

/-- C2: in the frame where progress reaches 1, both variants set the
camera position and look-at orientation exactly to the targets, clamp
progress to 1 and become inactive (App.jsx clears `isAnimating`;
part_000 relies on the `progress >= 1` guard), so the next frame
changes nothing. -/
theorem camera_animation_completion_snaps_exactly_and_stops
    (tp tl : Vec3) (anim : AppJsx.CamAnim) (cam : Camera)
    (r : Part000.CamRef) (cam2 : Camera)
    (h1 : anim.isAnimating = true) (h2 : 1 ≤ anim.progress + 0.004)
    (h3 : r.progress < 1) (h4 : 1 ≤ r.progress + 0.03) :
    (AppJsx.frame tp tl anim cam).2.position = tp ∧
    (AppJsx.frame tp tl anim cam).2.lookTarget = tl ∧
    (AppJsx.frame tp tl anim cam).1.progress = 1 ∧
    (AppJsx.frame tp tl anim cam).1.isAnimating = false ∧
    AppJsx.frame tp tl (AppJsx.frame tp tl anim cam).1
        (AppJsx.frame tp tl anim cam).2
      = AppJsx.frame tp tl anim cam ∧
    (Part000.frame (some tp) (some tl) r cam2).2.position = tp ∧
    (Part000.frame (some tp) (some tl) r cam2).2.lookTarget = tl ∧
    (Part000.frame (some tp) (some tl) r cam2).1.progress = 1 ∧
    Part000.frame (some tp) (some tl)
        (Part000.frame (some tp) (some tl) r cam2).1
        (Part000.frame (some tp) (some tl) r cam2).2
      = Part000.frame (some tp) (some tl) r cam2 := by
  have happ : AppJsx.frame tp tl anim cam
      = ({ anim with progress := 1, isAnimating := false },
         { position := tp, lookTarget := tl }) := by
    unfold AppJsx.frame
    rw [if_neg (by simp [h1]), if_pos h2]
  have hmin : min 1 (r.progress + 0.03) = 1 := min_eq_left h4
  have h000 : Part000.frame (some tp) (some tl) r cam2
      = ({ r with progress := 1 },
         { position := tp, lookTarget := tl }) := by
    show (if 1 ≤ r.progress then (r, cam2)
        else
          ({ r with progress := min 1 (r.progress + 0.03) },
           { position := lerpVectors r.fromPos tp
               ((1 - Real.cos (min 1 (r.progress + 0.03) * Real.pi)) / 2),
             lookTarget := lerpVectors r.fromLookAt tl
               ((1 - Real.cos (min 1 (r.progress + 0.03) * Real.pi)) / 2) }))
      = _
    rw [if_neg (not_le.mpr h3), hmin]
    have heased : (1 - Real.cos (1 * Real.pi)) / 2 = 1 := by
      rw [one_mul, Real.cos_pi]
      norm_num
    rw [heased, lerpVectors_one, lerpVectors_one]
  rw [happ, h000]
  refine ⟨rfl, rfl, rfl, rfl, ?_, rfl, rfl, rfl, ?_⟩
  · unfold AppJsx.frame
    rw [if_pos rfl]
  · show (if (1 : ℝ) ≤ 1 then _ else _) = _
    rw [if_pos le_rfl]

/-- C2 witness: a concrete completing frame in each variant. -/
theorem camera_animation_completion_witness :
    ((⟨⟨0, 0, 0⟩, ⟨0, 0, 0⟩, 0.999, true⟩ : AppJsx.CamAnim).isAnimating
        = true) ∧
    (1 : ℝ) ≤ 0.999 + 0.004 ∧ (0.98 : ℝ) < 1 ∧ (1 : ℝ) ≤ 0.98 + 0.03 ∧
    (AppJsx.frame ⟨4, 5, 6⟩ ⟨0, 0, 0⟩ ⟨⟨0, 0, 0⟩, ⟨0, 0, 0⟩, 0.999, true⟩
        ⟨⟨1, 2, 3⟩, ⟨0, 0, 0⟩⟩).2.position = ⟨4, 5, 6⟩ ∧
    (Part000.frame (some ⟨4, 5, 6⟩) (some ⟨0, 0, 0⟩)
        ⟨0.98, ⟨0, 0, 0⟩, ⟨0, 0, 0⟩⟩ ⟨⟨1, 2, 3⟩, ⟨0, 0, 0⟩⟩).1.progress = 1 :=
  ⟨rfl, by norm_num, by norm_num, by norm_num,
   (camera_animation_completion_snaps_exactly_and_stops ⟨4, 5, 6⟩ ⟨0, 0, 0⟩
      ⟨⟨0, 0, 0⟩, ⟨0, 0, 0⟩, 0.999, true⟩ ⟨⟨1, 2, 3⟩, ⟨0, 0, 0⟩⟩
      ⟨0.98, ⟨0, 0, 0⟩, ⟨0, 0, 0⟩⟩ ⟨⟨1, 2, 3⟩, ⟨0, 0, 0⟩⟩
      rfl (by norm_num) (by norm_num) (by norm_num)).1,
   (camera_animation_completion_snaps_exactly_and_stops ⟨4, 5, 6⟩ ⟨0, 0, 0⟩
      ⟨⟨0, 0, 0⟩, ⟨0, 0, 0⟩, 0.999, true⟩ ⟨⟨1, 2, 3⟩, ⟨0, 0, 0⟩⟩
      ⟨0.98, ⟨0, 0, 0⟩, ⟨0, 0, 0⟩⟩ ⟨⟨1, 2, 3⟩, ⟨0, 0, 0⟩⟩
      rfl (by norm_num) (by norm_num) (by norm_num)).2.2.2.2.2.2.2.1⟩

/-- C3: whenever a new camera target is assigned, both controllers
reset progress to 0 and capture the camera's current live position as
the interpolation start — the captured start depends only on the live
camera position, not on the previous animation state — and within one
episode a frame never decreases progress (App.jsx needs progress at
most 1, which holds throughout an episode started at 0). -/
theorem new_target_resets_progress_and_start_is_live_position
    (c tp tl : Vec3) (a a' : AppJsx.CamAnim) (cam : Camera)
    (r r0 r0' : Part000.CamRef) (cam2 : Camera)
    (h : a.progress ≤ 1) :
    (AppJsx.startAnimation c (some tp) (some tl) a).progress = 0 ∧
    (AppJsx.startAnimation c (some tp) (some tl) a).startPosition = c ∧
    (AppJsx.startAnimation c (some tp) (some tl) a).isAnimating = true ∧
    AppJsx.startAnimation c (some tp) (some tl) a
      = AppJsx.startAnimation c (some tp) (some tl) a' ∧
    (Part000.startAnimation c (some tp) (some tl) r0).progress = 0 ∧
    (Part000.startAnimation c (some tp) (some tl) r0).fromPos = c ∧
    Part000.startAnimation c (some tp) (some tl) r0
      = Part000.startAnimation c (some tp) (some tl) r0' ∧
    a.progress ≤ (AppJsx.frame tp tl a cam).1.progress ∧
    (AppJsx.frame tp tl a cam).1.progress ≤ 1 ∧
    r.progress ≤ (Part000.frame (some tp) (some tl) r cam2).1.progress := by
  refine ⟨rfl, rfl, rfl, rfl, rfl, rfl, rfl, ?_, ?_, ?_⟩
  · unfold AppJsx.frame
    split_ifs with hb hp
    · exact le_refl _
    · exact h
    · exact le_add_of_nonneg_right (by norm_num)
  · unfold AppJsx.frame
    split_ifs with hb hp
    · exact h
    · exact le_refl _
    · exact le_of_lt (not_le.mp hp)
  · show r.progress ≤ (if 1 ≤ r.progress then (r, cam2)
        else
          ({ r with progress := min 1 (r.progress + 0.03) },
           { position := lerpVectors r.fromPos tp
               ((1 - Real.cos (min 1 (r.progress + 0.03) * Real.pi)) / 2),
             lookTarget := lerpVectors r.fromLookAt tl
               ((1 - Real.cos (min 1 (r.progress + 0.03) * Real.pi)) / 2) })).1.progress
    split_ifs with hp
    · exact le_refl _
    · exact le_min (le_of_lt (not_le.mp hp))
        (le_add_of_nonneg_right (by norm_num))

/-- C3 witness: concrete restart and one concrete monotone frame in
each variant. -/
theorem new_target_reset_witness :
    ((⟨⟨9, 9, 9⟩, ⟨0, 0, 0⟩, 1 / 2, true⟩ : AppJsx.CamAnim).progress
        ≤ 1) ∧
    (AppJsx.startAnimation ⟨1, 2, 3⟩ (some ⟨4, 5, 6⟩) (some ⟨0, 0, 0⟩)
        ⟨⟨9, 9, 9⟩, ⟨0, 0, 0⟩, 1 / 2, true⟩).progress = 0 ∧
    (Part000.startAnimation ⟨1, 2, 3⟩ (some ⟨4, 5, 6⟩) (some ⟨0, 0, 0⟩)
        ⟨1 / 2, ⟨9, 9, 9⟩, ⟨0, 0, 0⟩⟩).fromPos = ⟨1, 2, 3⟩ ∧
    (⟨⟨9, 9, 9⟩, ⟨0, 0, 0⟩, 1 / 2, true⟩ : AppJsx.CamAnim).progress
      ≤ (AppJsx.frame ⟨4, 5, 6⟩ ⟨0, 0, 0⟩
          ⟨⟨9, 9, 9⟩, ⟨0, 0, 0⟩, 1 / 2, true⟩
          ⟨⟨1, 2, 3⟩, ⟨0, 0, 0⟩⟩).1.progress :=
  ⟨by norm_num,
   (new_target_resets_progress_and_start_is_live_position ⟨1, 2, 3⟩ ⟨4, 5, 6⟩
      ⟨0, 0, 0⟩ ⟨⟨9, 9, 9⟩, ⟨0, 0, 0⟩, 1 / 2, true⟩
      ⟨⟨9, 9, 9⟩, ⟨0, 0, 0⟩, 1 / 2, true⟩ ⟨⟨1, 2, 3⟩, ⟨0, 0, 0⟩⟩
      ⟨1 / 2, ⟨9, 9, 9⟩, ⟨0, 0, 0⟩⟩ ⟨1 / 2, ⟨9, 9, 9⟩, ⟨0, 0, 0⟩⟩
      ⟨1 / 2, ⟨9, 9, 9⟩, ⟨0, 0, 0⟩⟩ ⟨⟨1, 2, 3⟩, ⟨0, 0, 0⟩⟩
      (by norm_num)).1,
   (new_target_resets_progress_and_start_is_live_position ⟨1, 2, 3⟩ ⟨4, 5, 6⟩
      ⟨0, 0, 0⟩ ⟨⟨9, 9, 9⟩, ⟨0, 0, 0⟩, 1 / 2, true⟩
      ⟨⟨9, 9, 9⟩, ⟨0, 0, 0⟩, 1 / 2, true⟩ ⟨⟨1, 2, 3⟩, ⟨0, 0, 0⟩⟩
      ⟨1 / 2, ⟨9, 9, 9⟩, ⟨0, 0, 0⟩⟩ ⟨1 / 2, ⟨9, 9, 9⟩, ⟨0, 0, 0⟩⟩
      ⟨1 / 2, ⟨9, 9, 9⟩, ⟨0, 0, 0⟩⟩ ⟨⟨1, 2, 3⟩, ⟨0, 0, 0⟩⟩
      (by norm_num)).2.2.2.2.2.1,
   (new_target_resets_progress_and_start_is_live_position ⟨1, 2, 3⟩ ⟨4, 5, 6⟩
      ⟨0, 0, 0⟩ ⟨⟨9, 9, 9⟩, ⟨0, 0, 0⟩, 1 / 2, true⟩
      ⟨⟨9, 9, 9⟩, ⟨0, 0, 0⟩, 1 / 2, true⟩ ⟨⟨1, 2, 3⟩, ⟨0, 0, 0⟩⟩
      ⟨1 / 2, ⟨9, 9, 9⟩, ⟨0, 0, 0⟩⟩ ⟨1 / 2, ⟨9, 9, 9⟩, ⟨0, 0, 0⟩⟩
      ⟨1 / 2, ⟨9, 9, 9⟩, ⟨0, 0, 0⟩⟩ ⟨⟨1, 2, 3⟩, ⟨0, 0, 0⟩⟩
      (by norm_num)).2.2.2.2.2.2.2.1⟩

/-- The size of a transformed box is the scaled size. -/
theorem transformBox_getSize (t : Transform) (b : Box3) :
    Box3.getSize (transformBox t b) = Vec3.smul t.scale (Box3.getSize b) := by
  unfold transformBox applyTransform Box3.getSize Vec3.sub Vec3.add Vec3.smul
  ext <;> ring

/-- The largest dimension of a transformed box is the scaled largest
dimension, for a nonnegative scale. -/
theorem maxDim_transformBox (t : Transform) (b : Box3) (hs : 0 ≤ t.scale) :
    maxDim (transformBox t b) = t.scale * maxDim b := by
  unfold maxDim
  rw [transformBox_getSize]
  simp only [Vec3.smul]
  rw [← mul_max_of_nonneg _ _ hs, ← mul_max_of_nonneg _ _ hs]

/-- The center of a transformed box is the transformed center. -/
theorem getCenter_transformBox (t : Transform) (b : Box3) :
    Box3.getCenter (transformBox t b)
      = Vec3.add (Vec3.smul t.scale (Box3.getCenter b)) t.position := by
  unfold Box3.getCenter transformBox applyTransform Vec3.add Vec3.smul
  ext <;> ring

/-- C4 counterexample: for the box from (0,0,0) to (4,4,4), App.jsx
computes scale 5/2 and translation (-2,-2,-2) (the unscaled negated
center), and the transformed bounding-box center is (3,3,3), not the
origin — the translation is applied after the scale, so subtracting
the unscaled center does not recenter the asset. -/
theorem appjsx_center_not_origin_counterexample :
    AppJsx.modelTransform ⟨⟨0, 0, 0⟩, ⟨4, 4, 4⟩⟩
      = some ⟨⟨-2, -2, -2⟩, 5 / 2⟩ ∧
    Box3.getCenter (transformBox ⟨⟨-2, -2, -2⟩, 5 / 2⟩ ⟨⟨0, 0, 0⟩, ⟨4, 4, 4⟩⟩)
      = ⟨3, 3, 3⟩ ∧
    (⟨3, 3, 3⟩ : Vec3) ≠ ⟨0, 0, 0⟩ := by
  have hm : maxDim ⟨⟨0, 0, 0⟩, ⟨4, 4, 4⟩⟩ = 4 := by
    norm_num [maxDim, Box3.getSize, Vec3.sub, max_self]
  refine ⟨?_, ?_, ?_⟩
  · unfold AppJsx.modelTransform AppJsx.modelScale
    rw [hm]
    norm_num [Box3.getCenter, Vec3.add, Vec3.smul, Vec3.neg,
      Vec3.mk.injEq, Transform.mk.injEq]
  · norm_num [transformBox, applyTransform, Box3.getCenter, Vec3.add,
      Vec3.smul, Vec3.mk.injEq]
  · norm_num [Vec3.mk.injEq]

/-- C4 amended: for a non-degenerate bounding box both loaders scale
the asset so that its largest dimension equals the target size (10 in
App.jsx, 6 in part_000); part_000 places the transformed bounding-box
center at the origin, while App.jsx subtracts the unscaled center, so
its transformed center is (scale - 1) times the original center and
lies at the origin only when the center is the origin or the scale
is 1. -/
theorem model_scaling_amended (b : Box3) (h : 0 < maxDim b) :
    AppJsx.modelTransform b
      = some ⟨Vec3.neg (Box3.getCenter b), 10 / maxDim b⟩ ∧
    maxDim (transformBox ⟨Vec3.neg (Box3.getCenter b), 10 / maxDim b⟩ b)
      = 10 ∧
    Box3.getCenter
        (transformBox ⟨Vec3.neg (Box3.getCenter b), 10 / maxDim b⟩ b)
      = Vec3.smul (10 / maxDim b - 1) (Box3.getCenter b) ∧
    Part000.modelScale b = 6 / maxDim b ∧
    maxDim (transformBox (Part000.modelTransform b) b) = 6 ∧
    Box3.getCenter (transformBox (Part000.modelTransform b) b)
      = ⟨0, 0, 0⟩ := by
  have hne : maxDim b ≠ 0 := ne_of_gt h
  have hms : Part000.modelScale b = 6 / maxDim b := by
    unfold Part000.modelScale
    rw [if_pos h]
  refine ⟨?_, ?_, ?_, hms, ?_, ?_⟩
  · unfold AppJsx.modelTransform AppJsx.modelScale
    rw [if_neg hne]
    rfl
  · rw [maxDim_transformBox _ _ (le_of_lt (div_pos (by norm_num) h))]
    exact div_mul_cancel₀ 10 hne
  · rw [getCenter_transformBox]
    unfold Vec3.add Vec3.smul Vec3.neg
    ext <;> ring
  · rw [maxDim_transformBox]
    · show Part000.modelScale b * maxDim b = 6
      rw [hms]
      exact div_mul_cancel₀ 6 hne
    · show 0 ≤ Part000.modelScale b
      rw [hms]
      exact le_of_lt (div_pos (by norm_num) h)
  · rw [getCenter_transformBox]
    show Vec3.add (Vec3.smul (Part000.modelScale b) (Box3.getCenter b))
        (Vec3.neg (Vec3.smul (Part000.modelScale b) (Box3.getCenter b)))
      = ⟨0, 0, 0⟩
    unfold Vec3.add Vec3.smul Vec3.neg
    ext <;> ring

/-- C4 witness: the amended theorem evaluated at the box from (0,0,0)
to (4,4,4). -/
theorem model_scaling_amended_witness :
    0 < maxDim ⟨⟨0, 0, 0⟩, ⟨4, 4, 4⟩⟩ ∧
    Part000.modelScale ⟨⟨0, 0, 0⟩, ⟨4, 4, 4⟩⟩
      = 6 / maxDim ⟨⟨0, 0, 0⟩, ⟨4, 4, 4⟩⟩ ∧
    Box3.getCenter
        (transformBox (Part000.modelTransform ⟨⟨0, 0, 0⟩, ⟨4, 4, 4⟩⟩)
          ⟨⟨0, 0, 0⟩, ⟨4, 4, 4⟩⟩)
      = ⟨0, 0, 0⟩ := by
  have hm : 0 < maxDim ⟨⟨0, 0, 0⟩, ⟨4, 4, 4⟩⟩ := by
    norm_num [maxDim, Box3.getSize, Vec3.sub, max_self]
  exact ⟨hm, (model_scaling_amended _ hm).2.2.2.1,
    (model_scaling_amended _ hm).2.2.2.2.2⟩

/-- C9 counterexample: for a degenerate bounding box (largest dimension
zero) App.jsx divides 10 by zero with no guard; the JS result is the
non-finite value Infinity, so the scale factor is neither finite nor 1
there. -/
theorem appjsx_degenerate_scale_not_finite :
    AppJsx.modelScale ⟨⟨0, 0, 0⟩, ⟨0, 0, 0⟩⟩ = none := by
  norm_num [AppJsx.modelScale, maxDim, Box3.getSize, Vec3.sub, max_self]

/-- C9 amended: part_000 guards the degenerate bounding box and uses
scale factor 1 when the largest dimension is 0; App.jsx does not guard
and its quotient is non-finite there. -/
theorem degenerate_scale_amended (b : Box3) (h : maxDim b = 0) :
    Part000.modelScale b = 1 ∧ AppJsx.modelScale b = none := by
  constructor
  · unfold Part000.modelScale
    rw [if_neg (by rw [h]; exact lt_irrefl 0)]
  · unfold AppJsx.modelScale
    rw [if_pos h]

/-- C9 witness: the amended theorem evaluated at the degenerate box at
the origin. -/
theorem degenerate_scale_amended_witness :
    maxDim ⟨⟨0, 0, 0⟩, ⟨0, 0, 0⟩⟩ = 0 ∧
    Part000.modelScale ⟨⟨0, 0, 0⟩, ⟨0, 0, 0⟩⟩ = 1 := by
  have hm : maxDim ⟨⟨0, 0, 0⟩, ⟨0, 0, 0⟩⟩ = 0 := by
    norm_num [maxDim, Box3.getSize, Vec3.sub, max_self]
  exact ⟨hm, (degenerate_scale_amended _ hm).1⟩
